import Mathlib

/-!
Shallow embedding of `api/index.py` of the opoquiz backend (FastAPI app).

External services (the Supabase table client, the Gemini generative-text
API, the Firebase token verifier, and Python's `json.loads`) are modelled
as inputs bundled in an `Env` record: each field stands for the outcome of
one external call site.  Pure Python computations (string splitting,
stripping, fragment filtering, prompt templating, dict updates, the stats
aggregation, the Fisher-Yates shuffle of `random.shuffle`) are translated
into Lean functions.  Python `str` braces that occur literally in the
prompt templates are written with the escapes \x7b and \x7d.
-/

/-- JSON-like values, the shape of Python dict/list/str/int data flowing
through the handlers (`json.loads` output, Supabase rows, responses). -/
inductive JVal where
  | jnull : JVal
  | jstr : String → JVal
  | jnum : Int → JVal
  | jrat : ℚ → JVal
  | jbool : Bool → JVal
  | jobj : List (String × JVal) → JVal
  | jarr : List JVal → JVal

/-- A Python dict with string keys in insertion order (e.g. a parsed
question object or a database row). -/
abbrev JObj := List (String × JVal)

/-- Python `d[k]` read access (first binding wins; keys are unique in
dicts produced by `json.loads`, so this is the dict lookup). -/
def JObj.lookup : JObj → String → Option JVal
  | [], _ => none
  | (k', v') :: rest, k => if k' = k then some v' else JObj.lookup rest k

/-- Python `d[k] = v` on a dict: replace the value in place when the key
is present, otherwise append the new binding (insertion order). -/
def JObj.setKey : JObj → String → JVal → JObj
  | [], k, v => [(k, v)]
  | (k', v') :: rest, k, v =>
      if k' = k then (k, v) :: rest else (k', v') :: JObj.setKey rest k v

/-- `fastapi.HTTPException` as raised by the handlers: a status code and a
detail string (the `headers` argument of the 401 is not modelled). -/
structure HTTPException where
  status_code : Nat
  detail : String
deriving DecidableEq, Repr

/-- Starlette renders `str(HTTPException(code, detail))` as
`f"\x7bstatus_code\x7d: \x7bdetail\x7d"`; this is what `str(e)` yields
when a handler's `except Exception` block catches an `HTTPException`. -/
def HTTPException.str (e : HTTPException) : String :=
  toString e.status_code ++ ": " ++ e.detail

/-- An exception live inside a handler body: either an `HTTPException`
raised by the code itself or any other exception (network errors,
`json.JSONDecodeError`, `KeyError`, Supabase `APIError`, ...) carrying
its `str(e)` rendering. -/
inductive Exc where
  | http : HTTPException → Exc
  | other : String → Exc
deriving DecidableEq, Repr

/-- Python `str(e)` for an exception caught by an `except` block. -/
def Exc.str : Exc → String
  | .http e => e.str
  | .other m => m

/-- The `except Exception as e: raise HTTPException(status_code=500,
detail=str(e))` boundary that closes every handler body. -/
def handlerBoundary : Except Exc α → Except HTTPException α
  | .ok a => .ok a
  | .error e => .error ⟨500, e.str⟩

/-- A row of the `topics` table as used by the question endpoints: an id
and the `content` column (`none` models SQL NULL). -/
structure TopicRow where
  id : Int
  content : Option String
deriving DecidableEq, Repr

/-- A row of `test_respuestas` as consumed by `get_stats`. -/
structure AnswerRow where
  was_correct : Bool
  topic_id : Int
deriving DecidableEq, Repr

/-- The request body of `/api/ask-topic` (`AskRequest` Pydantic model). -/
structure AskRequest where
  context : Option String := none
  query : String
  summary_context : Option String := none
  schema_url : Option String := none

/-- Python truthiness of `Optional[str]`: `None` and `""` are falsy. -/
def pyTruthy : Option String → Bool
  | none => false
  | some s => s ≠ ""

/-- One registered background task of `BackgroundTasks.add_task(
save_question_to_history, final_question, topic_id, user_id)`: the
captured arguments.  The dict captured by the task is the same object
that line 399 then updates with `topic_id`, so the task observes the
post-assignment dict. -/
structure BgTask where
  question_data : JObj
  topic_id : Int
  user_id : String

/-- Environment: one field per external call site / request input. -/
structure Env where
  /-- Outcome of `auth.verify_id_token(token)` followed by
  `decoded_token[&apos;uid&apos;]`: the uid, or the exception message. -/
  verify : Except String String := .ok "user-1"
  /-- Contents of the `topics` table (id and content columns), backing
  the two queries of the question-generation endpoints. -/
  topics : List TopicRow := []
  /-- Failure injected into `topics.select(&apos;id&apos;).filter(...)` of
  `get_random_question` (`none` = the query succeeds). -/
  randSelectErr : Option String := none
  /-- Failure injected into `topics.select("content").eq(&apos;id&apos;,
  topic_id).single().execute()` of `generate_question_from_topic`. -/
  contentSelectErr : Option String := none
  /-- Randomness of `random.choice(all_fragments)` (reduced modulo the
  list length at use site). -/
  pick : Nat := 0
  /-- Randomness of `random.choice(all_topics_response.data)`. -/
  choice : Nat := 0
  /-- The generative API: `model.generate_content(prompt).text` for any
  of the Gemini models, or the exception message. -/
  modelText : String → Except String String := fun _ => .error "network"
  /-- `json.loads(cleaned_response)` restricted to the success shape the
  code needs: a JSON object.  Any other outcome (a decode error, or a
  non-dict value that would make `final_question[&apos;topic_id&apos;] =
  topic_id` raise) is the error case. -/
  parseJson : String → Except String JObj := fun _ => .error "decode"
  /-- The `topic_id` query parameter of `/api/get-question`. -/
  reqTopicId : Int := 0
  /-- The request body of `/api/ask-topic`. -/
  askReq : AskRequest := { query := "" }
  /-- Results of the three `re.findall` calls of
  `get_highlighted_explanation` on `request.context` (the regex engine is
  external to this embedding). -/
  hlExam : List String := []
  hlHigh : List String := []
  hlDate : List String := []
  /-- Randomness of `random.choice(priority_fragments)`. -/
  hlChoice : Nat := 0
  /-- `supabase.table(&apos;tests&apos;).insert(test_data).execute().data`. -/
  startTestInsert : Except String (List JObj) := .error "db"
  /-- Outcome of the `test_respuestas` insert of `record_answer`. -/
  recordAnswerInsert : Except String Unit := .error "db"
  /-- `test_respuestas` rows fetched for the user by `get_stats`. -/
  answers : Except String (List AnswerRow) := .error "db"
  /-- `supabase.rpc(&apos;get_most_failed_questions_for_user&apos;, ...).data`
  (`none` models a JSON null payload, turned into `[]` by `or []`). -/
  rpcMostFailed : Except String (Option (List JObj)) := .error "db"
  /-- The row dict returned by the `single()` query of
  `get_topic_context`. -/
  contextFetch : Except String JObj := .error "db"
  /-- `examenes` rows of `get_exam_list`. -/
  examsRows : Except String (List JObj) := .error "db"
  /-- `preguntas_examen` rows of `get_exam_questions`. -/
  examQuestionsRows : Except String (List JObj) := .error "db"
  /-- Randomness oracle of `random.shuffle`: for Fisher-Yates step `i`,
  `_randbelow(i+1)` is modelled as `shuffleRand i % (i+1)`. -/
  shuffleRand : Nat → Nat := fun _ => 0
  /-- `resumenes` rows of `get_topic_summaries`. -/
  summariesRows : Except String (List JObj) := .error "db"
  /-- `topics.select(&apos;id, title, pdf_url&apos;)` rows of `get_topics`. -/
  topicsRows : Except String (List JObj) := .error "db"

/-- `get_current_user`: verify the bearer token; any exception becomes a
401 `HTTPException` with a fixed detail. -/
def get_current_user (verify : Except String String) : Except HTTPException String :=
  match verify with
  | .ok uid => .ok uid
  | .error _ => .error ⟨401, "Token de autenticación inválido o expirado"⟩

/-- FastAPI `Depends(get_current_user)`: the dependency runs before the
handler body; on a 401 the body is never entered. -/
def requireAuth (verify : Except String String)
    (body : String → Except HTTPException α) : Except HTTPException α :=
  match get_current_user verify with
  | .ok uid => body uid
  | .error e => .error e

/-- A protected handler in its standard shape: auth dependency, then the
body wrapped by the `try/except` boundary. -/
def protectedHandler (verify : Except String String)
    (body : String → Except Exc α) : Except HTTPException α :=
  requireAuth verify (fun uid => handlerBoundary (body uid))

/-! ## Pure helpers of `generate_question_from_topic`

The Python string primitives `split`, `strip` and `replace` are
implemented here by structural recursion on the character list so that
they evaluate inside the kernel; each definition documents the exact
Python semantics it implements. -/

/-- Python `s.split("\n\n")`: cut `s` at every non-overlapping
occurrence of the two-newline separator, scanning left to right and
keeping empty pieces. -/
def splitOnBlankCL : List Char → List (List Char)
  | [] => [[]]
  | '\n' :: '\n' :: rest => [] :: splitOnBlankCL rest
  | c :: rest =>
      match splitOnBlankCL rest with
      | [] => [[c]]
      | h :: t => (c :: h) :: t

/-- Python `s.split("\n\n")` on strings. -/
def pySplitBlank (s : String) : List String :=
  (splitOnBlankCL s.data).map String.mk

/-- Python `s.strip()`: remove leading and trailing whitespace. -/
def pyStrip (s : String) : String :=
  String.mk (((s.data.dropWhile Char.isWhitespace).reverse.dropWhile
    Char.isWhitespace).reverse)

/-- Python `s.replace("```json", "")` (the backtick is the character
`\x60`): delete every non-overlapping occurrence, scanning left to
right. -/
def removeJsonFenceCL : List Char → List Char
  | '\x60' :: '\x60' :: '\x60' :: 'j' :: 's' :: 'o' :: 'n' :: rest => removeJsonFenceCL rest
  | c :: rest => c :: removeJsonFenceCL rest
  | [] => []

/-- Python `s.replace("```", "")`: delete every non-overlapping
triple-backtick, scanning left to right. -/
def removeFenceCL : List Char → List Char
  | '\x60' :: '\x60' :: '\x60' :: rest => removeFenceCL rest
  | c :: rest => c :: removeFenceCL rest
  | [] => []

/-- Line 372: `[p.strip() for p in full_text.split(&apos;\n\n&apos;) if
len(p.strip()) > 150]`. -/
def keptFragments (full_text : String) : List String :=
  ((pySplitBlank full_text).map pyStrip).filter (fun p => p.length > 150)

/-- Line 392: `gemini_response.text.strip().replace("```json",
"").replace("```", "").strip()`. -/
def cleanModelText (t : String) : String :=
  pyStrip (String.mk (removeFenceCL (removeJsonFenceCL (pyStrip t).data)))

/-- The f-string of lines 378-387 (single-question prompt; the literal
braces of the JSON example are \x7b and \x7d). -/
def singleQuestionPrompt (selected_fragment : String) : String :=
  "\n        Actúa como un tribunal de oposición. Basa una pregunta de test única y exclusivamente\n        en el siguiente FRAGMENTO ESPECÍFICO. Evita empezar la pregunta con \"Según el fragmento...\".\n        El formato de salida debe ser un único objeto JSON: \n        \x7b\"question\": \"...\", \"options\": \x7b...\x7d, \"correct_answer\": \"...\"\x7d\n\n        --- FRAGMENTO ESPECÍFICO ---\n        "
    ++ selected_fragment ++ "\n        ---\n        "

/-- `variety_instructions` of line 80. -/
def variety_instructions : List String :=
  ["un detalle específico o un dato numérico.", "una definición clave.",
   "las funciones o competencias de un órgano descrito.",
   "una comparación entre dos conceptos.", "una excepción a una regla general.",
   "un plazo, fecha o período de tiempo."]

/-- The `fragment_section` accumulation loop of lines 82-84, with `i`
the 0-based index of the enumeration. -/
def fragmentSection (fragments : List String) : String :=
  (fragments.enum.map (fun fi =>
      "\n--- FRAGMENTO DE TEXTO #" ++ toString (fi.1 + 1) ++ " ---\n" ++ fi.2 ++ "\n")).foldl
    (· ++ ·) ""

/-- `create_gemini_prompt_multiple` (lines 79-101): the five-questions
prompt.  It is defined in the source but never called by any endpoint. -/
def create_gemini_prompt_multiple (full_context : String) (fragments : List String) : String :=
  "\n    Actúa como un tribunal de oposición creando un examen variado y de alta dificultad.\n    Te proporciono el CONTEXTO COMPLETO de un tema y una lista de 5 FRAGMENTOS ESPECÍFICOS.\n    Tu tarea es generar una lista de 5 preguntas de test. Cada pregunta debe basarse única y exclusivamente en su fragmento correspondiente (Pregunta 1 -> Fragmento 1, etc.).\n    Para asegurar la máxima variedad, para cada pregunta, intenta enfocarla en un tipo de información diferente. Considera los siguientes enfoques: "
    ++ String.intercalate ", " variety_instructions
    ++ "\n    No te repitas en el tipo de pregunta.\n    La respuesta DEBE ser un array JSON que contenga 5 objetos JSON.\n    El formato de salida debe ser estrictamente este, sin añadir coletillas como \"Según el fragmento...\":\n    [\n        \x7b\"question\": \"¿Cuál es la capital de España?\", \"options\": \x7b\"A\": \"Lisboa\", \"B\": \"Madrid\", \"C\": \"París\", \"D\": \"Roma\"\x7d, \"correct_answer\": \"B\"\x7d,\n        ...\n    ]\n    --- CONTEXTO COMPLETO ---\n    "
    ++ full_context ++ "\n    ---\n    " ++ fragmentSection fragments ++ "\n    "

/-- The `single()` content fetch of line 366-367: exactly one row with
the requested id yields its `content` column (possibly NULL); zero or
several rows make `single()` raise; `contentSelectErr` injects transport
failures. -/
def fetchContent (env : Env) (topic_id : Int) : Except String (Option String) :=
  match env.contentSelectErr with
  | some m => .error m
  | none =>
      match env.topics.filter (fun t => t.id == topic_id) with
      | [t] => .ok t.content
      | _ => .error "JSON object requested, multiple (or no) rows returned"

/-- Everything `generate_question_from_topic` did to the outside world,
besides its return value. -/
structure GenRaw where
  res : Except Exc JObj
  /-- Prompts sent to the generative API (one per `generate_content`). -/
  prompts : List String
  /-- The candidate questions produced by the call (the parsed objects,
  with `topic_id` spliced in). -/
  candidates : List JObj
  /-- Background tasks registered with `background_tasks.add_task`. -/
  tasks : List BgTask

/-- Body of `generate_question_from_topic` (lines 364-402), before the
`except` boundary. -/
def generateRaw (env : Env) (topic_id : Int) (user_id : String) : GenRaw :=
  match fetchContent env topic_id with
  | .error m => ⟨.error (.other m), [], [], []⟩
  | .ok full_text =>
      -- line 368: `if not full_text` (None and "" are falsy)
      if pyTruthy full_text = false then
        ⟨.error (.http ⟨404, "Tema no encontrado o sin contenido"⟩), [], [], []⟩
      else
        let all_fragments := keptFragments (full_text.getD "")
        if all_fragments = [] then
          ⟨.error (.http ⟨400, "El contenido del tema es demasiado corto para generar preguntas"⟩),
            [], [], []⟩
        else
          let selected_fragment := all_fragments.getD (env.pick % all_fragments.length) ""
          let prompt := singleQuestionPrompt selected_fragment
          match env.modelText prompt with
          | .error m => ⟨.error (.other m), [prompt], [], []⟩
          | .ok text =>
              let cleaned_response := cleanModelText text
              match env.parseJson cleaned_response with
              | .error m => ⟨.error (.other m), [prompt], [], []⟩
              | .ok parsed =>
                  let final_question := JObj.setKey parsed "topic_id" (JVal.jnum topic_id)
                  ⟨.ok final_question, [prompt], [final_question],
                    [⟨final_question, topic_id, user_id⟩]⟩

/-- Result of `generate_question_from_topic` after its own
`try/except` boundary (lines 404-406). -/
structure GenResult where
  result : Except HTTPException JObj
  prompts : List String
  candidates : List JObj
  tasks : List BgTask

/-- `generate_question_from_topic` (lines 363-406). -/
def generate_question_from_topic (env : Env) (topic_id : Int) (user_id : String) : GenResult :=
  let raw := generateRaw env topic_id user_id
  ⟨handlerBoundary raw.res, raw.prompts, raw.candidates, raw.tasks⟩

/-! ## `save_question_to_history` (lines 102-115), the background task -/

/-- Log line printed at line 107. -/
def bgStartLog (topic_id : Int) : String :=
  "BG TASK: Guardando pregunta para el tema " ++ toString topic_id ++ " en el historial."

/-- Log line printed at line 115 by the `except` block. -/
def bgErrLog (m : String) : String :=
  "!!! ERROR EN TAREA DE FONDO (save_question): " ++ m

/-- `save_question_to_history`: build the insert payload from
`question_data[&apos;question&apos;]` (a missing key raises `KeyError`,
rendered by Python with quotes around the key) and run the insert; every
exception is caught and only printed, so the function returns its log
lines and nothing else.  `insertOutcome` is the external result of
`supabase.table(&apos;preguntas_generadas&apos;).insert(...).execute()`. -/
def save_question_to_history (insertOutcome : Except String Unit)
    (question_data : JObj) (topic_id : Int) (_user_id : String) : List String :=
  match question_data.lookup "question" with
  | none => [bgStartLog topic_id, bgErrLog "KeyError: question"]
  | some _ =>
      match insertOutcome with
      | .ok _ => [bgStartLog topic_id, "BG TASK: Pregunta guardada con éxito."]
      | .error m => [bgStartLog topic_id, bgErrLog m]

/-- The full lifecycle of one `/api/get-question` request: the response
is produced first (line 402) and the registered background tasks run
afterwards with whatever outcome the deferred insert has. -/
structure RequestOutcome where
  response : Except HTTPException JObj
  bgLogs : List String

/-- `/api/get-question` request plus its deferred history write. -/
def handle_get_question (env : Env) (insertOutcome : Except String Unit)
    (topic_id : Int) (user_id : String) : RequestOutcome :=
  let g := generate_question_from_topic env topic_id user_id
  { response := g.result
    bgLogs := (g.tasks.map (fun t =>
      save_question_to_history insertOutcome t.question_data t.topic_id t.user_id)).flatten }

/-! ## `random.shuffle` (CPython Fisher-Yates), used by `get_exam_questions` -/

/-- One step `x[i], x[j] = x[j], x[i]` of the shuffle (both indices are
in range at every call site; out-of-range is the identity). -/
def shuffleSwap (l : List α) (i j : Nat) : List α :=
  match l[i]?, l[j]? with
  | some xi, some xj => (l.set i xj).set j xi
  | _, _ => l

/-- `for i in reversed(range(1, len(x))): j = _randbelow(i+1); swap`,
counting `i` down from `len(x) - 1` to `1`. -/
def shuffleGo (rand : Nat → Nat) : Nat → List α → List α
  | 0, l => l
  | i + 1, l => shuffleGo rand i (shuffleSwap l (i + 1) (rand (i + 1) % (i + 2)))

/-- `random.shuffle(questions)` with randomness oracle `rand`. -/
def pyShuffle (rand : Nat → Nat) (l : List α) : List α :=
  shuffleGo rand (l.length - 1) l

/-! ## `get_stats` (lines 292-311) -/

/-- Per-topic counter dict value of `by_topic`. -/
structure TopicCount where
  correct : Nat
  incorrect : Nat
deriving DecidableEq, Repr

/-- Lines 306-308: ensure the key exists with zero counts, then bump the
chosen field.  `by_topic` is a dict, modelled as an insertion-ordered
association list. -/
def bumpTopic : List (Int × TopicCount) → Int → Bool → List (Int × TopicCount)
  | [], tid, wc => [(tid, if wc then ⟨1, 0⟩ else ⟨0, 1⟩)]
  | (k, v) :: rest, tid, wc =>
      if k = tid then
        (k, if wc then ⟨v.correct + 1, v.incorrect⟩ else ⟨v.correct, v.incorrect + 1⟩) :: rest
      else
        (k, v) :: bumpTopic rest tid wc

/-- The response dict of `get_stats`. -/
structure StatsOut where
  total_answered : Nat
  correct : Nat
  incorrect : Nat
  by_topic : List (Int × TopicCount)
  accuracy : ℚ
deriving DecidableEq, Repr

/-- Body of `get_stats` on the fetched rows: the zero short-circuit of
line 298 and the aggregation of lines 300-309 (`accuracy` is a Python
float, modelled exactly as a rational). -/
def get_stats_calc (respuestas : List AnswerRow) : StatsOut :=
  let total := respuestas.length
  if total = 0 then ⟨0, 0, 0, [], 0⟩
  else
    let correctas := respuestas.countP (fun r => r.was_correct)
    let incorrectas := total - correctas
    let accuracy : ℚ := ((correctas : ℚ) / (total : ℚ)) * 100
    let by_topic := respuestas.foldl (fun bt r => bumpTopic bt r.topic_id r.was_correct) []
    ⟨total, correctas, incorrectas, by_topic, accuracy⟩

/-! ## `/api/ask-topic` (lines 165-232) -/

/-- The summary-template prompt of lines 173-202. -/
def summaryPrompt (summary_context : String) : String :=
  "\n            **ROL:** Eres un sistema de IA experto en crear apuntes de estudio de alta calidad para opositores. Tu objetivo es la claridad, la exhaustividad y la precisión.\n\n            **TAREA:** Analiza el texto proporcionado y genera un resumen muy estructurado\n            siguiendo estrictamente el siguiente formato Markdown.\n\n            **TEXTO A RESUMIR:**\n            ---\n            "
    ++ summary_context
    ++ "\n            ---\n\n            **FORMATO DE SALIDA OBLIGATORIO (RELLENA CADA SECCIÓN CON PROFUNDIDAD):**\n\n            ### Puntos Clave Fundamentales\n            - (Usa viñetas para listar y explicar brevemente los 3 a 5 conceptos más esenciales del texto.)\n\n            ### Artículos y Legislación Relevante\n            - (Crea una lista de todos los artículos de leyes mencionados. Para cada uno, escribe el número del artículo en negrita y explica su contenido principal.)\n\n            ### Fechas y Plazos Cruciales\n            - (Si existen, crea una lista de todas las fechas y plazos importantes, explicando qué ocurrió en cada una.)\n            \n            ### Resumen General Desarrollado\n            (Escribe un resumen en prosa de varios párrafos que conecte todas las ideas anteriores.)\n            \n            ---\n            \n            ### Fuente Principal\n            (Aquí, cita textualmente la frase o párrafo más importante del \"TEXTO A RESUMIR\" que, en tu opinión, encapsula la idea central de todo el documento.)\n            "

/-- The tutor prompt of lines 212-222. -/
def tutorPrompt (context_to_use : String) (query : String) : String :=
  "\n            Actúa como un tutor experto. Responde a la pregunta del usuario basándote\n            estrictamente en el TEXTO DEL TEMARIO. Después de tu respuesta, añade una sección\n            \"**Fuente:**\" y cita textualmente la frase en la que te has basado.\n            --- TEXTO DEL TEMARIO ---\n            "
    ++ context_to_use
    ++ "\n            ---\n            --- PREGUNTA DEL USUARIO ---\n            "
    ++ query ++ "\n            ---\n            "

/-- The fixed answer of line 210 when no study text was supplied. -/
def noContextAnswer : String :=
  "Lo siento, no se ha proporcionado temario para responder."

/-- Body of `ask_topic` before the `except` boundary, together with the
list of prompts sent to the generative API. -/
def ask_topic_raw (env : Env) : Except Exc JVal × List String :=
  let req := env.askReq
  let is_summary_request := req.query == "SYSTEM_COMMAND_GENERATE_SUMMARY"
  if is_summary_request && pyTruthy req.summary_context then
    let prompt := summaryPrompt (req.summary_context.getD "")
    (match env.modelText prompt with
     | .ok t => .ok (JVal.jobj [("answer", JVal.jstr t)])
     | .error m => .error (.other m), [prompt])
  else
    -- line 208: `context_to_use = request.context or request.summary_context`
    let context_to_use := if pyTruthy req.context then req.context else req.summary_context
    if pyTruthy context_to_use = false then
      (.ok (JVal.jobj [("answer", JVal.jstr noContextAnswer)]), [])
    else
      let prompt := tutorPrompt (context_to_use.getD "") req.query
      (match env.modelText prompt with
       | .ok t => .ok (JVal.jobj [("answer", JVal.jstr t)])
       | .error m => .error (.other m), [prompt])

/-- `/api/ask-topic`: auth dependency, then the body under its
`try/except` boundary; the second component is the generative-API call
trace (empty when no call was made). -/
def ask_topic (env : Env) : Except HTTPException JVal × List String :=
  match get_current_user env.verify with
  | .error e => (.error e, [])
  | .ok _ =>
      let r := ask_topic_raw env
      (handlerBoundary r.1, r.2)

/-! ## `/api/get-highlighted-explanation` (lines 234-270) -/

/-- The explanation prompt of lines 257-264. -/
def highlightPrompt (chosen_fragment : String) : String :=
  "\n        Actúa como un profesor experto. Un opositor te ha pedido que le expliques en profundidad\n        el siguiente concepto clave de su temario:\n        ---\n        "
    ++ pyStrip chosen_fragment
    ++ "\n        ---\n        Genera una explicación clara, detallada y fácil de entender.\n        "

/-- Body of `get_highlighted_explanation`: concatenate the three
`re.findall` result lists, answer a fixed message when empty, otherwise
explain a randomly chosen fragment. -/
def get_highlighted_explanation_raw (env : Env) : Except Exc JVal :=
  let priority_fragments := env.hlExam ++ env.hlHigh ++ env.hlDate
  if priority_fragments = [] then
    .ok (JVal.jobj [("answer", JVal.jstr "No he encontrado conceptos con etiquetas especiales ([PREGUNTA_EXAMEN], [DESTACADO], etc.) en el temario.")])
  else
    let chosen_fragment :=
      priority_fragments.getD (env.hlChoice % priority_fragments.length) ""
    match env.modelText (highlightPrompt chosen_fragment) with
    | .ok t => .ok (JVal.jobj [("answer", JVal.jstr t)])
    | .error m => .error (.other m)

/-! ## The remaining handler bodies -/

/-- `read_root` (lines 118-120), the unauthenticated status endpoint. -/
def read_root : JVal :=
  JVal.jobj [("status", JVal.jstr "OpoQuiz API está conectada y funcionando!")]

/-- Body of `get_topics` (lines 122-128): return the selected rows. -/
def get_topics_raw (env : Env) : Except Exc JVal :=
  match env.topicsRows with
  | .ok rows => .ok (JVal.jarr (rows.map JVal.jobj))
  | .error m => .error (.other m)

/-- Body of `get_topic_summaries` (lines 131-146). -/
def get_topic_summaries_raw (env : Env) : Except Exc JVal :=
  match env.summariesRows with
  | .ok rows => .ok (JVal.jobj [("summaries", JVal.jarr (rows.map JVal.jobj))])
  | .error m => .error (.other m)

/-- The `topics.select(&apos;id&apos;).filter(&apos;content&apos;, &apos;not.is&apos;,
&apos;null&apos;)` query of line 155: the ids of exactly the rows whose
`content` column is not NULL. -/
def selectIdsWithContent (topics : List TopicRow) : List Int :=
  (topics.filter (fun t => t.content.isSome)).map (fun t => t.id)

/-- Body of `get_random_question` (lines 154-160) before its `except`
block.  A failure of the embedded `generate_question_from_topic` call is
an `HTTPException` in flight, to be caught by the boundary. -/
def get_random_question_raw (env : Env) (user_id : String) : Except Exc JObj :=
  match env.randSelectErr with
  | some m => .error (.other m)
  | none =>
      let ids := selectIdsWithContent env.topics
      if ids = [] then
        .error (.http ⟨404, "No hay temas con contenido."⟩)
      else
        let random_topic_id := ids.getD (env.choice % ids.length) 0
        match (generate_question_from_topic env random_topic_id user_id).result with
        | .ok q => .ok q
        | .error he => .error (.http he)

/-- `get_random_question` (lines 152-162): its `except` block does not
re-raise `str(e)` alone, it prefixes a fixed message (line 162). -/
def get_random_question (env : Env) : Except HTTPException JObj :=
  requireAuth env.verify (fun user_id =>
    match get_random_question_raw env user_id with
    | .ok q => .ok q
    | .error e => .error ⟨500, "Error al seleccionar tema aleatorio: " ++ e.str⟩)

/-- `get_question` (lines 148-150): no `try` of its own, it returns
`generate_question_from_topic` directly. -/
def get_question (env : Env) (topic_id : Int) : Except HTTPException JObj :=
  requireAuth env.verify (fun user_id =>
    (generate_question_from_topic env topic_id user_id).result)

/-- Body of `start_new_test` (lines 272-279):
`\x7b"test_id": response.data[0][&apos;id&apos;]\x7d`; a missing row or key
raises (`IndexError`/`KeyError`), caught by the boundary. -/
def start_new_test_raw (env : Env) : Except Exc JVal :=
  match env.startTestInsert with
  | .error m => .error (.other m)
  | .ok rows =>
      match rows with
      | [] => .error (.other "list index out of range")
      | r :: _ =>
          match r.lookup "id" with
          | some v => .ok (JVal.jobj [("test_id", v)])
          | none => .error (.other "KeyError: id")

/-- Body of `record_answer` (lines 281-290). -/
def record_answer_raw (env : Env) : Except Exc JVal :=
  match env.recordAnswerInsert with
  | .ok _ => .ok (JVal.jobj [("status", JVal.jstr "success")])
  | .error m => .error (.other m)

/-- The response dict of `get_stats` as a JSON object (line 299 or 309). -/
def statsToJVal (s : StatsOut) : JVal :=
  JVal.jobj
    [("total_answered", JVal.jnum s.total_answered),
     ("correct", JVal.jnum s.correct),
     ("incorrect", JVal.jnum s.incorrect),
     ("by_topic", JVal.jobj (s.by_topic.map (fun kv =>
        (toString kv.1,
         JVal.jobj [("correct", JVal.jnum kv.2.correct),
                    ("incorrect", JVal.jnum kv.2.incorrect)])))),
     ("accuracy", JVal.jrat s.accuracy)]

/-- Body of `get_stats` (lines 292-311). -/
def get_stats_raw (env : Env) : Except Exc JVal :=
  match env.answers with
  | .error m => .error (.other m)
  | .ok respuestas => .ok (statsToJVal (get_stats_calc respuestas))

/-- Body of `get_most_failed_questions` (lines 313-319):
`response.data or []` turns a null payload into the empty list. -/
def get_most_failed_questions_raw (env : Env) : Except Exc JVal :=
  match env.rpcMostFailed with
  | .error m => .error (.other m)
  | .ok data =>
      let questions := match data with
        | none => []
        | some rows => rows
      .ok (JVal.jobj [("ok", JVal.jbool true), ("questions", JVal.jarr (questions.map JVal.jobj))])

/-- Body of `get_topic_context` (lines 321-332): the `single()` row is
returned as-is; `if not response.data` (an empty dict) raises a 404 that
the handler's own `except` then converts. -/
def get_topic_context_raw (env : Env) : Except Exc JVal :=
  match env.contextFetch with
  | .error m => .error (.other m)
  | .ok data =>
      match data with
      | [] => .error (.http ⟨404, "Tema no encontrado"⟩)
      | _ => .ok (JVal.jobj data)

/-- Body of `get_exam_list` (lines 337-344). -/
def get_exam_list_raw (env : Env) : Except Exc JVal :=
  match env.examsRows with
  | .ok rows => .ok (JVal.jobj [("exams", JVal.jarr (rows.map JVal.jobj))])
  | .error m => .error (.other m)

/-- Body of `get_exam_questions` (lines 346-356): fetch the rows for the
exam, shuffle them in place, return them. -/
def get_exam_questions_raw (env : Env) : Except Exc JVal :=
  match env.examQuestionsRows with
  | .error m => .error (.other m)
  | .ok rows =>
      let questions := pyShuffle env.shuffleRand rows
      .ok (JVal.jobj [("questions", JVal.jarr (questions.map JVal.jobj))])

/-! ## The routed API surface -/

/-- The endpoints of the app, in source order. -/
inductive Endpoint where
  | api_root
  | topics
  | topic_summaries
  | question
  | random_question
  | askTopic
  | highlighted_explanation
  | tests_start
  | tests_answer
  | stats
  | most_failed_questions
  | topic_context
  | exams
  | exam_questions
deriving DecidableEq, Repr

/-- Dispatch a request to an endpoint.  Every endpoint except the root
status endpoint resolves the `Depends(get_current_user)` dependency
before its body. -/
def route (ep : Endpoint) (env : Env) : Except HTTPException JVal :=
  match ep with
  | .api_root => .ok read_root
  | .topics => protectedHandler env.verify (fun _ => get_topics_raw env)
  | .topic_summaries => protectedHandler env.verify (fun _ => get_topic_summaries_raw env)
  | .question => (get_question env env.reqTopicId).map JVal.jobj
  | .random_question => (get_random_question env).map JVal.jobj
  | .askTopic => (ask_topic env).1
  | .highlighted_explanation =>
      protectedHandler env.verify (fun _ => get_highlighted_explanation_raw env)
  | .tests_start => protectedHandler env.verify (fun _ => start_new_test_raw env)
  | .tests_answer => protectedHandler env.verify (fun _ => record_answer_raw env)
  | .stats => protectedHandler env.verify (fun _ => get_stats_raw env)
  | .most_failed_questions =>
      protectedHandler env.verify (fun _ => get_most_failed_questions_raw env)
  | .topic_context => protectedHandler env.verify (fun _ => get_topic_context_raw env)
  | .exams => protectedHandler env.verify (fun _ => get_exam_list_raw env)
  | .exam_questions => protectedHandler env.verify (fun _ => get_exam_questions_raw env)

/-! ## Spec-modelled definitions and concrete witness environments -/

/-- Modelled from the spec: the text of a candidate question is its
`question` field. -/
def candidateText (c : JObj) : String :=
  match c.lookup "question" with
  | some (JVal.jstr s) => s
  | _ => ""

/-- Modelled from the spec: "accept the first candidate whose text is
not fuzzy-similar (above a fixed threshold) to any of a short
recent-history window, falling back to returning a duplicate if all
candidates are rejected".  `similar c h` stands for "the fuzzy
similarity score of `c` and `h` is above the fixed threshold". -/
def spec_pick_candidate (similar : String → String → Bool)
    (hist : List String) (cands : List JObj) : Option JObj :=
  match cands.find? (fun c => hist.all (fun h => !(similar (candidateText c) h))) with
  | some c => some c
  | none => cands.head?

/-- Content of the `topics` row used by the concrete witnesses: one
fragment of 160 identical characters, above the 150 threshold. -/
def wContent : String := String.mk (List.replicate 160 'a')

/-- The object `json.loads` yields in the concrete witnesses. -/
def wQuestion : JObj := [("question", JVal.jstr "¿Cuál es la capital de España?")]

/-- A concrete environment on which question generation succeeds. -/
def wEnvGen : Env :=
  { verify := .ok "u1"
    topics := [⟨1, some wContent⟩]
    pick := 0
    modelText := fun _ => .ok "RAW"
    parseJson := fun _ => .ok wQuestion
    reqTopicId := 1 }

/-- The question `wEnvGen` produces: the parsed object with the topic id
spliced in. -/
def wResult : JObj :=
  [("question", JVal.jstr "¿Cuál es la capital de España?"), ("topic_id", JVal.jnum 1)]

/-- A concrete `ask-topic` request: an ordinary question with no context
fields set. -/
def wEnvAsk : Env := { verify := .ok "u1", askReq := { query := "hola" } }

/-- A topic whose content is non-NULL but too short to yield any
fragment: generation fails on it. -/
def wEnvShort : Env :=
  { verify := .ok "u1", topics := [⟨1, some "x"⟩], reqTopicId := 1 }

/-- A store with no contentful topics, for the random-endpoint error
path. -/
def wEnvEmpty : Env := { verify := .ok "u1" }

/-- A store whose `topics` listing query fails. -/
def wEnvDbErr : Env := { verify := .ok "u1", topicsRows := .error "connection reset" }

/-- A request carrying a token the identity provider rejects. -/
def wEnvBadAuth : Env := { verify := .error "expired token" }

/-- Total number of answers recorded in the `by_topic` map. -/
def byTopicSum (bt : List (Int × TopicCount)) : Nat :=
  (bt.map (fun kv => kv.2.correct + kv.2.incorrect)).sum

/-- A store with three exam questions. -/
def wEnvExam : Env :=
  { verify := .ok "u1"
    examQuestionsRows := .ok [[("q", JVal.jnum 1)], [("q", JVal.jnum 2)], [("q", JVal.jnum 3)]] }

/-! ## General lemmas -/

theorem handlerBoundary_ok {α : Type} {x : Except Exc α} {a : α} :
    handlerBoundary x = .ok a ↔ x = .ok a := by
  cases x <;> simp [handlerBoundary]

theorem handlerBoundary_err {α : Type} {x : Except Exc α} {e : Exc}
    (h : x = .error e) : handlerBoundary x = .error ⟨500, e.str⟩ := by
  subst h; rfl

theorem JObj.lookup_setKey_self (o : JObj) (k : String) (v : JVal) :
    (o.setKey k v).lookup k = some v := by
  induction o with
  | nil => simp [JObj.setKey, JObj.lookup]
  | cons kv rest ih =>
      obtain ⟨k', v'⟩ := kv
      by_cases h : k' = k <;> simp [JObj.setKey, JObj.lookup, h, ih]

theorem JObj.lookup_setKey_ne (o : JObj) (k k' : String) (v : JVal)
    (hk : k' ≠ k) : (o.setKey k v).lookup k' = o.lookup k' := by
  induction o with
  | nil => simp [JObj.setKey, JObj.lookup, Ne.symm hk]
  | cons kv rest ih =>
      obtain ⟨k₀, v₀⟩ := kv
      by_cases h : k₀ = k
      · subst h; simp [JObj.setKey, JObj.lookup, hk, Ne.symm hk]
      · by_cases h' : k₀ = k' <;> simp [JObj.setKey, JObj.lookup, h, h', hk, ih]

/-! ## Claim C1 -/

theorem spec_pick_candidate_singleton (similar : String → String → Bool)
    (hist : List String) (c : JObj) :
    spec_pick_candidate similar hist [c] = some c := by
  unfold spec_pick_candidate
  rcases h : hist.all (fun hh => !(similar (candidateText c) hh)) <;>
    simp [List.find?, h]

/-- Characterization of a successful run of the generation body: the
content was fetched and truthy, a kept fragment was selected, the model
was called once on the single-question prompt, its cleaned text parsed,
and the parsed object with `topic_id` spliced in is the sole candidate,
the return value and the background-task payload. -/
theorem generateRaw_ok_elim {env : Env} {tid : Int} {uid : String} {q : JObj}
    (h : (generateRaw env tid uid).res = .ok q) :
    ∃ ft t raw,
      fetchContent env tid = .ok (some ft) ∧ ft ≠ "" ∧
      keptFragments ft ≠ [] ∧
      env.modelText (singleQuestionPrompt
        ((keptFragments ft).getD (env.pick % (keptFragments ft).length) "")) = .ok t ∧
      env.parseJson (cleanModelText t) = .ok raw ∧
      q = JObj.setKey raw "topic_id" (JVal.jnum tid) ∧
      generateRaw env tid uid =
        ⟨.ok q,
         [singleQuestionPrompt
            ((keptFragments ft).getD (env.pick % (keptFragments ft).length) "")],
         [q], [⟨q, tid, uid⟩]⟩ := by
  unfold generateRaw at h ⊢
  rcases hfc : fetchContent env tid with m | oft
  · rw [hfc] at h; exact absurd h (by simp)
  · rw [hfc] at h
    rcases oft with _ | ft
    · simp [pyTruthy] at h
    · by_cases hft : ft = ""
      · subst hft; simp [pyTruthy] at h
      · have hpt : pyTruthy (some ft) = true := by simp [pyTruthy, hft]
        simp only [hpt, Bool.true_eq_false, if_false, Option.getD_some] at h ⊢
        by_cases hfr : keptFragments ft = []
        · rw [if_pos hfr] at h; exact absurd h (by simp)
        · rw [if_neg hfr] at h ⊢
          split at h
          · exact absurd h (by simp)
          · rename_i text hmt
            split at h
            · exact absurd h (by simp)
            · rename_i parsed hp
              simp only [Except.ok.injEq] at h
              refine ⟨ft, text, parsed, rfl, hft, hfr, hmt, hp, h.symm, ?_⟩
              simp only [hmt, hp, h]

/-- Claim C1: whenever `generate_question_from_topic` succeeds, its
candidate list is a single question, and for every fuzzy-similarity
predicate and every recent-history window the spec's selection rule
(first non-similar candidate, falling back to a duplicate when all are
rejected, never failing) applied to that candidate list returns exactly
the question the endpoint returned.  The property holds degenerately:
the code produces exactly one candidate and returns it unconditionally
(no fuzzy comparison occurs in `generate_question_from_topic`; the
`thefuzz` import is unused there), and on one candidate the accept
branch and the fallback branch coincide. -/
theorem c1_returned_question_is_spec_dedup_pick
    (env : Env) (tid : Int) (uid : String) (q : JObj)
    (similar : String → String → Bool) (hist : List String)
    (h : (generate_question_from_topic env tid uid).result = .ok q) :
    (generate_question_from_topic env tid uid).candidates = [q] ∧
      spec_pick_candidate similar hist
        (generate_question_from_topic env tid uid).candidates = some q := by
  have hres : (generateRaw env tid uid).res = .ok q := by
    have h' := h
    unfold generate_question_from_topic at h'
    exact handlerBoundary_ok.mp h'
  obtain ⟨ft, t, raw, -, -, -, -, -, -, hall⟩ := generateRaw_ok_elim hres
  have hc' : (generate_question_from_topic env tid uid).candidates = [q] := by
    unfold generate_question_from_topic
    rw [hall]
  refine ⟨hc', ?_⟩
  rw [hc']
  exact spec_pick_candidate_singleton similar hist q

set_option maxRecDepth 10000

/-! ## Claim C4 -/

/-- Claim C4: a question returned by the generation endpoints is exactly
the JSON object parsed from the markdown-fence-cleaned model text with
the key `topic_id` set to the requested topic id: the `topic_id` lookup
yields the topic id, and every other key reads exactly as in the parsed
object. -/
theorem c4_topic_id_spliced (env : Env) (tid : Int) (uid : String) (q : JObj)
    (h : (generate_question_from_topic env tid uid).result = .ok q) :
    ∃ p t raw,
      (generate_question_from_topic env tid uid).prompts = [p] ∧
      env.modelText p = .ok t ∧
      env.parseJson (cleanModelText t) = .ok raw ∧
      q = JObj.setKey raw "topic_id" (JVal.jnum tid) ∧
      q.lookup "topic_id" = some (JVal.jnum tid) ∧
      (∀ k, k ≠ "topic_id" → q.lookup k = raw.lookup k) := by
  have hres : (generateRaw env tid uid).res = .ok q := by
    have h' := h; unfold generate_question_from_topic at h'
    exact handlerBoundary_ok.mp h'
  obtain ⟨ft, t, raw, hfc, hft, hfr, hmt, hp, hq, hall⟩ := generateRaw_ok_elim hres
  refine ⟨_, t, raw, ?_, hmt, hp, hq, ?_, ?_⟩
  · unfold generate_question_from_topic; rw [hall]
  · rw [hq]; exact JObj.lookup_setKey_self raw "topic_id" (JVal.jnum tid)
  · intro k hk; rw [hq]; exact JObj.lookup_setKey_ne raw "topic_id" k (JVal.jnum tid) hk

theorem c1_witness :
    (generate_question_from_topic wEnvGen 1 "u1").candidates = [wResult] ∧
      spec_pick_candidate (fun _ _ => true) ["¿Cuál es la capital de España?"]
        (generate_question_from_topic wEnvGen 1 "u1").candidates = some wResult :=
  c1_returned_question_is_spec_dedup_pick wEnvGen 1 "u1" wResult
    (fun _ _ => true) ["¿Cuál es la capital de España?"] (by rfl)

theorem c4_witness :
    ∃ p t raw,
      (generate_question_from_topic wEnvGen 1 "u1").prompts = [p] ∧
      wEnvGen.modelText p = .ok t ∧
      wEnvGen.parseJson (cleanModelText t) = .ok raw ∧
      wResult = JObj.setKey raw "topic_id" (JVal.jnum 1) ∧
      wResult.lookup "topic_id" = some (JVal.jnum 1) ∧
      (∀ k, k ≠ "topic_id" → wResult.lookup k = raw.lookup k) :=
  c4_topic_id_spliced wEnvGen 1 "u1" wResult (by rfl)

/-! ## Claim C5 -/

/-- Claim C5: the history write of `/api/get-question` is deferred to a
background task; the response is determined by the generation alone and
is the same whatever outcome the deferred insert later has, and a
failing write is swallowed into exactly two log lines (the start line
and the error line: a single attempt, no retry, nothing surfaced to the
caller). -/
theorem c5_background_write_isolated (env : Env) (tid : Int) (uid : String)
    (o₁ o₂ : Except String Unit) (q : JObj) (m : String)
    (hq : q.lookup "question" ≠ none) :
    (handle_get_question env o₁ tid uid).response
        = (handle_get_question env o₂ tid uid).response ∧
    (handle_get_question env o₁ tid uid).response
        = (generate_question_from_topic env tid uid).result ∧
    save_question_to_history (.error m) q tid uid
        = [bgStartLog tid, bgErrLog m] := by
  refine ⟨rfl, rfl, ?_⟩
  unfold save_question_to_history
  rcases hl : q.lookup "question" with _ | v
  · exact absurd hl hq
  · rfl

theorem c5_witness :
    (handle_get_question wEnvGen (.ok ()) 1 "u1").response
        = (handle_get_question wEnvGen (.error "boom") 1 "u1").response ∧
    (handle_get_question wEnvGen (.ok ()) 1 "u1").response
        = (generate_question_from_topic wEnvGen 1 "u1").result ∧
    save_question_to_history (.error "boom") wQuestion 1 "u1"
        = [bgStartLog 1, bgErrLog "boom"] :=
  c5_background_write_isolated wEnvGen 1 "u1" (.ok ()) (.error "boom")
    wQuestion "boom" (by simp [wQuestion, JObj.lookup])

/-! ## Claim C10 -/

/-- Claim C10: an authenticated `ask-topic` request that is not the
summary command and carries neither a context nor a summary context is
answered with the fixed apology, a success result, no generative-API
call (empty prompt trace) and no error. -/
theorem c10_apology_without_model_call (env : Env) (uid : String)
    (hv : env.verify = .ok uid)
    (hq : env.askReq.query ≠ "SYSTEM_COMMAND_GENERATE_SUMMARY")
    (hc : env.askReq.context = none)
    (hs : env.askReq.summary_context = none) :
    ask_topic env = (.ok (JVal.jobj [("answer", JVal.jstr noContextAnswer)]), []) := by
  have hb : (env.askReq.query == "SYSTEM_COMMAND_GENERATE_SUMMARY") = false :=
    beq_eq_false_iff_ne.mpr hq
  unfold ask_topic ask_topic_raw
  rw [hv]
  simp [get_current_user, hb, hc, hs, pyTruthy, handlerBoundary]

theorem c10_witness :
    ask_topic wEnvAsk = (.ok (JVal.jobj [("answer", JVal.jstr noContextAnswer)]), []) :=
  c10_apology_without_model_call wEnvAsk "u1" rfl (by decide) rfl rfl

/-! ## Claim C2 -/

/-- A kept fragment is a stripped blank-line piece of the content with
more than 150 characters. -/
theorem keptFragments_spec (ft p : String) (hp : p ∈ keptFragments ft) :
    150 < p.length ∧ p ∈ (pySplitBlank ft).map pyStrip := by
  unfold keptFragments at hp
  have h := List.mem_filter.mp hp
  exact ⟨by simpa using h.2, h.1⟩

/-- An element drawn by `random.choice`, i.e. at index `c % length`, is
a member of the (non-empty) list. -/
theorem getD_mod_mem {α : Type} (l : List α) (n : Nat) (d : α) (h : l ≠ []) :
    l.getD (n % l.length) d ∈ l := by
  have hl : 0 < l.length := List.length_pos.mpr h
  have hn : n % l.length < l.length := Nat.mod_lt _ hl
  rw [List.getD_eq_getElem?_getD, List.getElem?_eq_getElem hn, Option.getD_some]
  exact List.getElem_mem hn

/-- Conversely, every member of a list is drawn by some `random.choice`
outcome. -/
theorem mem_exists_getD_mod {α : Type} (l : List α) (a d : α) (ha : a ∈ l) :
    ∃ c, l.getD (c % l.length) d = a := by
  obtain ⟨i, hi, hget⟩ := List.mem_iff_getElem.mp ha
  refine ⟨i, ?_⟩
  rw [Nat.mod_eq_of_lt hi, List.getD_eq_getElem?_getD,
    List.getElem?_eq_getElem hi, Option.getD_some]
  exact hget

/-- Claim C2 (amended): for a topic whose fetched content is a
non-empty string, generation keeps exactly the stripped blank-line
pieces longer than 150 characters; when no piece qualifies, the request
fails with the fixed 400 raised before any generative call (no prompt
is sent); otherwise exactly one prompt is sent, namely the
single-question prompt built from the fragment drawn from the kept
list. -/
theorem c2_single_candidate_generation (env : Env) (tid : Int) (uid : String)
    (ft : String) (hfc : fetchContent env tid = .ok (some ft)) (hft : ft ≠ "") :
    (∀ p, p ∈ keptFragments ft → 150 < p.length ∧ p ∈ (pySplitBlank ft).map pyStrip) ∧
    (keptFragments ft = [] →
      (generateRaw env tid uid).res = .error (.http
        ⟨400, "El contenido del tema es demasiado corto para generar preguntas"⟩) ∧
      (generateRaw env tid uid).prompts = []) ∧
    (keptFragments ft ≠ [] →
      ∃ frag, frag ∈ keptFragments ft ∧
        (generateRaw env tid uid).prompts = [singleQuestionPrompt frag]) := by
  have hpt : pyTruthy (some ft) = true := by simp [pyTruthy, hft]
  refine ⟨fun p hp => keptFragments_spec ft p hp, ?_, ?_⟩
  · intro hempty
    unfold generateRaw
    rw [hfc]
    simp only [hpt, Bool.true_eq_false, if_false, Option.getD_some]
    rw [if_pos hempty]
    exact ⟨rfl, rfl⟩
  · intro hne
    refine ⟨(keptFragments ft).getD (env.pick % (keptFragments ft).length) "",
      getD_mod_mem _ _ _ hne, ?_⟩
    unfold generateRaw
    rw [hfc]
    simp only [hpt, Bool.true_eq_false, if_false, Option.getD_some]
    rw [if_neg hne]
    split <;> try rfl
    split <;> rfl

/-- Claim C2 is wrong where it says the code "asks the generative API
for several candidate multiple-choice questions tied to specific
fragments": on a concrete topic the endpoint sends exactly one prompt,
the single-question prompt on the selected fragment, which is not the
five-question `create_gemini_prompt_multiple` prompt the claim points
at (that function is never called by any endpoint), and exactly one
candidate is produced. -/
theorem c2_counterexample :
    (generate_question_from_topic wEnvGen 1 "u1").prompts
        = [singleQuestionPrompt wContent] ∧
    singleQuestionPrompt wContent
        ≠ create_gemini_prompt_multiple wContent (keptFragments wContent) ∧
    (generate_question_from_topic wEnvGen 1 "u1").candidates = [wResult] :=
  ⟨by rfl, by decide, by rfl⟩

theorem c2_witness :
    (∀ p, p ∈ keptFragments wContent →
      150 < p.length ∧ p ∈ (pySplitBlank wContent).map pyStrip) ∧
    (keptFragments wContent = [] →
      (generateRaw wEnvGen 1 "u1").res = .error (.http
        ⟨400, "El contenido del tema es demasiado corto para generar preguntas"⟩) ∧
      (generateRaw wEnvGen 1 "u1").prompts = []) ∧
    (keptFragments wContent ≠ [] →
      ∃ frag, frag ∈ keptFragments wContent ∧
        (generateRaw wEnvGen 1 "u1").prompts = [singleQuestionPrompt frag]) :=
  c2_single_candidate_generation wEnvGen 1 "u1" wContent (by rfl) (by decide)

/-! ## Claim C7 -/

/-- Claim C7 (amended): the random-question endpoint draws the topic id
from exactly the ids of the topics whose `content` is non-NULL (every
draw lands in that set and every member of the set is drawn under some
randomness); on success it returns exactly the by-topic-id generation
result at the drawn id, but on failure it does not behave identically:
it re-wraps the error as a 500 whose detail prefixes the fixed message
"Error al seleccionar tema aleatorio: " to the error's string form, and
when no topic has non-NULL content it fails with that wrapping of the
404. -/
theorem c7_random_topic_selection (env : Env) (uid : String)
    (hv : env.verify = .ok uid) (hr : env.randSelectErr = none) :
    (selectIdsWithContent env.topics ≠ [] →
      (selectIdsWithContent env.topics).getD
        (env.choice % (selectIdsWithContent env.topics).length) 0
        ∈ selectIdsWithContent env.topics) ∧
    (∀ t, t ∈ env.topics → t.content.isSome →
      ∃ c, (selectIdsWithContent env.topics).getD
        (c % (selectIdsWithContent env.topics).length) 0 = t.id) ∧
    (∀ q, selectIdsWithContent env.topics ≠ [] →
      (generate_question_from_topic env
        ((selectIdsWithContent env.topics).getD
          (env.choice % (selectIdsWithContent env.topics).length) 0) uid).result = .ok q →
      get_random_question env = .ok q) ∧
    (∀ he, selectIdsWithContent env.topics ≠ [] →
      (generate_question_from_topic env
        ((selectIdsWithContent env.topics).getD
          (env.choice % (selectIdsWithContent env.topics).length) 0) uid).result = .error he →
      get_random_question env
        = .error ⟨500, "Error al seleccionar tema aleatorio: " ++ he.str⟩) ∧
    (selectIdsWithContent env.topics = [] →
      get_random_question env
        = .error ⟨500, "Error al seleccionar tema aleatorio: 404: No hay temas con contenido."⟩) := by
  refine ⟨fun hne => getD_mod_mem _ _ _ hne, ?_, ?_, ?_, ?_⟩
  · intro t ht hsome
    refine mem_exists_getD_mod _ _ 0 ?_
    unfold selectIdsWithContent
    exact List.mem_map_of_mem _ (List.mem_filter.mpr ⟨ht, by simpa using hsome⟩)
  · intro q hne hok
    unfold get_random_question requireAuth get_current_user get_random_question_raw
    rw [hv, hr]
    simp only [if_neg hne, hok]
  · intro he hne herr
    unfold get_random_question requireAuth get_current_user get_random_question_raw
    rw [hv, hr]
    simp only [if_neg hne, herr]
    rfl
  · intro hempty
    unfold get_random_question requireAuth get_current_user get_random_question_raw
    rw [hv, hr]
    simp only [if_pos hempty]
    rfl

/-- Claim C7 is wrong where it says the random endpoint "behaves
identically to the by-topic-id question generation applied to that
identifier": on a concrete store with a single (too short) contentful
topic, the by-topic endpoint returns a 500 whose detail is the string
of the inner 400, while the random endpoint returns a 500 whose detail
additionally prefixes "Error al seleccionar tema aleatorio: 500: ". -/
theorem c7_counterexample :
    get_random_question wEnvShort = .error ⟨500,
      "Error al seleccionar tema aleatorio: 500: 400: El contenido del tema es demasiado corto para generar preguntas"⟩ ∧
    get_question wEnvShort 1 = .error ⟨500,
      "400: El contenido del tema es demasiado corto para generar preguntas"⟩ ∧
    get_random_question wEnvShort ≠ get_question wEnvShort 1 := by
  have hr : get_random_question wEnvShort = .error ⟨500,
      "Error al seleccionar tema aleatorio: 500: 400: El contenido del tema es demasiado corto para generar preguntas"⟩ := by
    rfl
  have hq : get_question wEnvShort 1 = .error ⟨500,
      "400: El contenido del tema es demasiado corto para generar preguntas"⟩ := by
    rfl
  refine ⟨hr, hq, ?_⟩
  rw [hr, hq]
  intro h
  injection h with h'
  exact absurd h' (by decide)

theorem c7_witness :
    ((selectIdsWithContent wEnvGen.topics ≠ [] →
      (selectIdsWithContent wEnvGen.topics).getD
        (wEnvGen.choice % (selectIdsWithContent wEnvGen.topics).length) 0
        ∈ selectIdsWithContent wEnvGen.topics) ∧
     get_random_question wEnvGen = .ok wResult) := by
  have h := c7_random_topic_selection wEnvGen "u1" rfl rfl
  exact ⟨h.1, h.2.2.1 wResult (by decide) (by rfl)⟩

/-! ## Claim C3 -/

/-- A handler in the standard shape maps a body exception to a 500
carrying `str(e)`. -/
theorem protectedHandler_err {α : Type} (v : Except String String) (uid : String)
    (b : String → Except Exc α) (e : Exc) (hv : v = .ok uid)
    (hb : b uid = .error e) :
    protectedHandler v b = .error ⟨500, e.str⟩ := by
  subst hv
  show handlerBoundary (b uid) = _
  rw [hb]
  rfl

/-- Any error escaping a handler in the standard shape is the 401 of
the auth dependency or a 500 from the boundary. -/
theorem protectedHandler_err_status {α : Type} (v : Except String String)
    (b : String → Except Exc α) (he : HTTPException)
    (h : protectedHandler v b = .error he) :
    he.status_code = 500 ∨ he = ⟨401, "Token de autenticación inválido o expirado"⟩ := by
  rcases v with m | uid
  · right
    exact (Except.error.inj h).symm
  · rcases hb : b uid with e | a
    · left
      have h' : protectedHandler (Except.ok uid) b = .error ⟨500, e.str⟩ :=
        protectedHandler_err _ uid b e rfl hb
      rw [h'] at h
      rw [← (Except.error.inj h)]
    · have h' : protectedHandler (Except.ok uid) b = .ok a := by
        show handlerBoundary (b uid) = _
        rw [hb]
        rfl
      rw [h'] at h
      exact absurd h (by simp)

/-- With a verified user, `get_random_question` is its body under the
prefixing `except` block of line 162. -/
theorem get_random_question_unfold (env : Env) (uid : String)
    (hv : env.verify = .ok uid) :
    get_random_question env =
      (match get_random_question_raw env uid with
       | .ok q => .ok q
       | .error e => .error ⟨500, "Error al seleccionar tema aleatorio: " ++ e.str⟩) := by
  unfold get_random_question requireAuth get_current_user
  rw [hv]

/-- An error of a mapped `Except` comes from the underlying one. -/
theorem except_map_error {α β : Type} (f : α → β) (x : Except HTTPException α)
    (he : HTTPException) (h : x.map f = .error he) : x = .error he := by
  cases x with
  | error e =>
      have hm : Except.map f (Except.error e) = (Except.error e : Except HTTPException β) := rfl
      rw [hm] at h
      rw [Except.error.inj h]
  | ok a => simp [Except.map] at h

/-- Claim C3 (amended): for every handler, an exception raised in the
body is caught at the boundary and turned into a 500 response; the
detail is exactly the exception's string representation for every
handler except `get_random_question`, whose detail prefixes the fixed
message "Error al seleccionar tema aleatorio: " to it; and no error
response of any endpoint carries a status other than 500 besides the
401 of the auth dependency. -/
theorem c3_error_boundary :
    (∀ env : Env, ∀ uid e, env.verify = .ok uid → get_topics_raw env = .error e →
      route .topics env = .error ⟨500, e.str⟩) ∧
    (∀ env : Env, ∀ uid e, env.verify = .ok uid → get_topic_summaries_raw env = .error e →
      route .topic_summaries env = .error ⟨500, e.str⟩) ∧
    (∀ env : Env, ∀ uid e, env.verify = .ok uid → get_highlighted_explanation_raw env = .error e →
      route .highlighted_explanation env = .error ⟨500, e.str⟩) ∧
    (∀ env : Env, ∀ uid e, env.verify = .ok uid → start_new_test_raw env = .error e →
      route .tests_start env = .error ⟨500, e.str⟩) ∧
    (∀ env : Env, ∀ uid e, env.verify = .ok uid → record_answer_raw env = .error e →
      route .tests_answer env = .error ⟨500, e.str⟩) ∧
    (∀ env : Env, ∀ uid e, env.verify = .ok uid → get_stats_raw env = .error e →
      route .stats env = .error ⟨500, e.str⟩) ∧
    (∀ env : Env, ∀ uid e, env.verify = .ok uid → get_most_failed_questions_raw env = .error e →
      route .most_failed_questions env = .error ⟨500, e.str⟩) ∧
    (∀ env : Env, ∀ uid e, env.verify = .ok uid → get_topic_context_raw env = .error e →
      route .topic_context env = .error ⟨500, e.str⟩) ∧
    (∀ env : Env, ∀ uid e, env.verify = .ok uid → get_exam_list_raw env = .error e →
      route .exams env = .error ⟨500, e.str⟩) ∧
    (∀ env : Env, ∀ uid e, env.verify = .ok uid → get_exam_questions_raw env = .error e →
      route .exam_questions env = .error ⟨500, e.str⟩) ∧
    (∀ env : Env, ∀ uid e, env.verify = .ok uid → (ask_topic_raw env).1 = .error e →
      (ask_topic env).1 = .error ⟨500, e.str⟩) ∧
    (∀ env : Env, ∀ tid uid e, (generateRaw env tid uid).res = .error e →
      (generate_question_from_topic env tid uid).result = .error ⟨500, e.str⟩) ∧
    (∀ env : Env, ∀ uid e, env.verify = .ok uid → get_random_question_raw env uid = .error e →
      get_random_question env
        = .error ⟨500, "Error al seleccionar tema aleatorio: " ++ e.str⟩) ∧
    (∀ ep : Endpoint, ∀ env : Env, ∀ he, route ep env = .error he →
      he.status_code = 500 ∨ he = ⟨401, "Token de autenticación inválido o expirado"⟩) := by
  refine ⟨?_, ?_, ?_, ?_, ?_, ?_, ?_, ?_, ?_, ?_, ?_, ?_, ?_, ?_⟩
  · exact fun env uid e hv hb => protectedHandler_err env.verify uid _ e hv hb
  · exact fun env uid e hv hb => protectedHandler_err env.verify uid _ e hv hb
  · exact fun env uid e hv hb => protectedHandler_err env.verify uid _ e hv hb
  · exact fun env uid e hv hb => protectedHandler_err env.verify uid _ e hv hb
  · exact fun env uid e hv hb => protectedHandler_err env.verify uid _ e hv hb
  · exact fun env uid e hv hb => protectedHandler_err env.verify uid _ e hv hb
  · exact fun env uid e hv hb => protectedHandler_err env.verify uid _ e hv hb
  · exact fun env uid e hv hb => protectedHandler_err env.verify uid _ e hv hb
  · exact fun env uid e hv hb => protectedHandler_err env.verify uid _ e hv hb
  · exact fun env uid e hv hb => protectedHandler_err env.verify uid _ e hv hb
  · intro env uid e hv hb
    unfold ask_topic get_current_user
    rw [hv]
    show (handlerBoundary (ask_topic_raw env).1, (ask_topic_raw env).2).1 = _
    show handlerBoundary (ask_topic_raw env).1 = _
    rw [hb]
    rfl
  · intro env tid uid e hb
    unfold generate_question_from_topic
    show handlerBoundary (generateRaw env tid uid).res = _
    rw [hb]
    rfl
  · intro env uid e hv hb
    rw [get_random_question_unfold env uid hv, hb]
  · intro ep env he h
    cases ep with
    | api_root => exact absurd h (by simp [route])
    | topics => exact protectedHandler_err_status env.verify _ he h
    | topic_summaries => exact protectedHandler_err_status env.verify _ he h
    | highlighted_explanation => exact protectedHandler_err_status env.verify _ he h
    | tests_start => exact protectedHandler_err_status env.verify _ he h
    | tests_answer => exact protectedHandler_err_status env.verify _ he h
    | stats => exact protectedHandler_err_status env.verify _ he h
    | most_failed_questions => exact protectedHandler_err_status env.verify _ he h
    | topic_context => exact protectedHandler_err_status env.verify _ he h
    | exams => exact protectedHandler_err_status env.verify _ he h
    | exam_questions => exact protectedHandler_err_status env.verify _ he h
    | question =>
        have h' := except_map_error JVal.jobj _ he h
        rcases hv : env.verify with m | uid
        · right
          have hq : get_question env env.reqTopicId
              = .error ⟨401, "Token de autenticación inválido o expirado"⟩ := by
            unfold get_question requireAuth get_current_user
            rw [hv]
          rw [hq] at h'
          exact (Except.error.inj h').symm
        · have hq : get_question env env.reqTopicId
              = handlerBoundary (generateRaw env env.reqTopicId uid).res := by
            unfold get_question requireAuth get_current_user generate_question_from_topic
            rw [hv]
          rw [hq] at h'
          rcases hb : (generateRaw env env.reqTopicId uid).res with e | a
          · rw [hb] at h'
            left
            rw [← (Except.error.inj h')]
          · rw [hb] at h'
            exact absurd h' (by simp [handlerBoundary])
    | random_question =>
        have h' := except_map_error JVal.jobj _ he h
        rcases hv : env.verify with m | uid
        · right
          have hq : get_random_question env
              = .error ⟨401, "Token de autenticación inválido o expirado"⟩ := by
            unfold get_random_question requireAuth get_current_user
            rw [hv]
          rw [hq] at h'
          exact (Except.error.inj h').symm
        · rw [get_random_question_unfold env uid hv] at h'
          rcases hb : get_random_question_raw env uid with e | q
          · rw [hb] at h'
            left
            rw [← (Except.error.inj h')]
          · rw [hb] at h'
            exact absurd h' (by simp)
    | askTopic =>
        rcases hv : env.verify with m | uid
        · right
          have hq : (ask_topic env).1
              = .error ⟨401, "Token de autenticación inválido o expirado"⟩ := by
            unfold ask_topic get_current_user
            rw [hv]
          rw [show route .askTopic env = (ask_topic env).1 from rfl, hq] at h
          exact (Except.error.inj h).symm
        · have hq : (ask_topic env).1 = handlerBoundary (ask_topic_raw env).1 := by
            unfold ask_topic get_current_user
            rw [hv]
          rw [show route .askTopic env = (ask_topic env).1 from rfl, hq] at h
          rcases hb : (ask_topic_raw env).1 with e | a
          · rw [hb] at h
            left
            rw [← (Except.error.inj h)]
          · rw [hb] at h
            exact absurd h (by simp [handlerBoundary])

/-- Claim C3 is wrong where it says the failure detail is the
exception's string representation for every handler: in
`get_random_question` the body raises the 404 "No hay temas con
contenido." (whose string form is "404: No hay temas con contenido."),
but the response detail is that string with "Error al seleccionar tema
aleatorio: " prefixed, not the string itself. -/
theorem c3_counterexample :
    get_random_question_raw wEnvEmpty "u1"
        = .error (.http ⟨404, "No hay temas con contenido."⟩) ∧
    get_random_question wEnvEmpty
        = .error ⟨500, "Error al seleccionar tema aleatorio: 404: No hay temas con contenido."⟩ ∧
    "Error al seleccionar tema aleatorio: 404: No hay temas con contenido."
        ≠ (Exc.http ⟨404, "No hay temas con contenido."⟩).str :=
  ⟨rfl, rfl, by decide⟩

theorem c3_witness :
    route .topics wEnvDbErr = .error ⟨500, "connection reset"⟩ ∧
    (route .topics wEnvDbErr = .error ⟨500, "connection reset"⟩ →
      (500 : Nat) = 500 ∨ (⟨500, "connection reset"⟩ : HTTPException)
        = ⟨401, "Token de autenticación inválido o expirado"⟩) := by
  have h := c3_error_boundary
  refine ⟨h.1 wEnvDbErr "u1" (.other "connection reset") rfl rfl, ?_⟩
  intro hr
  have := h.2.2.2.2.2.2.2.2.2.2.2.2.2 .topics wEnvDbErr ⟨500, "connection reset"⟩ hr
  exact this

/-! ## Claim C6 -/

/-- Claim C6: for every endpoint except the root status endpoint, a
request whose token fails verification is answered with the fixed 401
of `get_current_user`, whatever the rest of the environment holds: the
dependency runs before the handler body, so no database or
generative-API outcome can influence the response and no downstream
call is observable. -/
theorem c6_auth_rejected_before_body (ep : Endpoint) (env : Env) (m : String)
    (hep : ep ≠ .api_root) (hv : env.verify = .error m) :
    route ep env = .error ⟨401, "Token de autenticación inválido o expirado"⟩ := by
  cases ep <;>
    first
    | exact absurd rfl hep
    | (unfold route protectedHandler requireAuth get_current_user get_question
         get_random_question ask_topic
       rw [hv]
       try rfl)

theorem c6_witness :
    route .topics wEnvBadAuth
        = .error ⟨401, "Token de autenticación inválido o expirado"⟩ :=
  c6_auth_rejected_before_body .topics wEnvBadAuth "expired token" (by decide) rfl

/-! ## Claim C8 -/

theorem byTopicSum_bump (bt : List (Int × TopicCount)) (tid : Int) (wc : Bool) :
    byTopicSum (bumpTopic bt tid wc) = byTopicSum bt + 1 := by
  induction bt with
  | nil => cases wc <;> simp [bumpTopic, byTopicSum]
  | cons kv rest ih =>
      obtain ⟨k, v⟩ := kv
      by_cases h : k = tid <;> cases wc <;>
        simp [bumpTopic, byTopicSum, h] at ih ⊢ <;> omega

theorem foldl_bumpTopic_sum (rows : List AnswerRow) (bt : List (Int × TopicCount)) :
    byTopicSum (rows.foldl (fun b r => bumpTopic b r.topic_id r.was_correct) bt)
      = byTopicSum bt + rows.length := by
  induction rows generalizing bt with
  | nil => simp
  | cons r rest ih =>
      simp only [List.foldl_cons, List.length_cons, ih, byTopicSum_bump]
      omega

/-- Claim C8: the stats response satisfies
`correct + incorrect = total_answered`,
`accuracy = correct / total_answered * 100` (exactly, over the
rationals), the per-topic counters sum to `total_answered`, and the
empty answer list yields the all-zero response of line 299 without any
division. -/
theorem c8_stats_totals (rows : List AnswerRow) :
    (get_stats_calc rows).correct + (get_stats_calc rows).incorrect
        = (get_stats_calc rows).total_answered ∧
    (get_stats_calc rows).accuracy
        = ((get_stats_calc rows).correct : ℚ)
            / ((get_stats_calc rows).total_answered : ℚ) * 100 ∧
    byTopicSum (get_stats_calc rows).by_topic = (get_stats_calc rows).total_answered ∧
    get_stats_calc [] = ⟨0, 0, 0, [], 0⟩ := by
  refine ⟨?_, ?_, ?_, rfl⟩
  · unfold get_stats_calc
    by_cases h : rows.length = 0
    · simp [h]
    · have hc : List.countP (fun r => r.was_correct) rows ≤ rows.length :=
        List.countP_le_length _
      simp [h]
      omega
  · unfold get_stats_calc
    by_cases h : rows.length = 0
    · simp [h]
    · simp [h]
  · unfold get_stats_calc
    by_cases h : rows.length = 0
    · simp [h, byTopicSum]
    · have hs := foldl_bumpTopic_sum rows []
      simp [h, byTopicSum] at hs ⊢
      exact hs

/-! ## Claim C9 -/

theorem cons_set_perm {α : Type} (xs : List α) (k : Nat) (a b : α)
    (hb : xs[k]? = some b) : List.Perm (b :: xs.set k a) (a :: xs) := by
  induction xs generalizing k with
  | nil => simp at hb
  | cons y ys ih =>
      cases k with
      | zero =>
          have hyb : y = b := by simpa using hb
          subst hyb
          show List.Perm (y :: a :: ys) (a :: y :: ys)
          exact List.Perm.swap a y ys
      | succ k =>
          have hb' : ys[k]? = some b := by simpa using hb
          show List.Perm (b :: y :: ys.set k a) (a :: y :: ys)
          exact ((List.Perm.swap y b (ys.set k a)).trans
            ((ih k hb').cons y)).trans (List.Perm.swap a y ys)

theorem set_set_perm {α : Type} (l : List α) (i j : Nat) (a b : α)
    (ha : l[i]? = some a) (hb : l[j]? = some b) :
    List.Perm ((l.set i b).set j a) l := by
  induction l generalizing i j with
  | nil => simp at ha
  | cons x xs ih =>
      cases i with
      | zero =>
          have hxa : x = a := by simpa using ha
          subst hxa
          cases j with
          | zero =>
              exact List.Perm.refl (x :: xs)
          | succ j =>
              have hb' : xs[j]? = some b := by simpa using hb
              show List.Perm (b :: xs.set j x) (x :: xs)
              exact cons_set_perm xs j x b hb'
      | succ i =>
          have ha' : xs[i]? = some a := by simpa using ha
          cases j with
          | zero =>
              have hxb : x = b := by simpa using hb
              subst hxb
              show List.Perm (a :: xs.set i x) (x :: xs)
              exact cons_set_perm xs i x a ha'
          | succ j =>
              have hb' : xs[j]? = some b := by simpa using hb
              show List.Perm (x :: (xs.set i b).set j a) (x :: xs)
              exact (ih i j ha' hb').cons x

theorem shuffleSwap_perm {α : Type} (l : List α) (i j : Nat) :
    List.Perm (shuffleSwap l i j) l := by
  unfold shuffleSwap
  rcases hi : l[i]? with _ | xi
  · exact List.Perm.refl l
  · rcases hj : l[j]? with _ | xj
    · exact List.Perm.refl l
    · exact set_set_perm l i j xi xj hi hj

theorem shuffleGo_perm {α : Type} (rand : Nat → Nat) (n : Nat) (l : List α) :
    List.Perm (shuffleGo rand n l) l := by
  induction n generalizing l with
  | zero => exact List.Perm.refl l
  | succ n ih =>
      exact (ih _).trans (shuffleSwap_perm l (n + 1) (rand (n + 1) % (n + 2)))

/-- `random.shuffle` returns a permutation of its input for every
randomness oracle. -/
theorem pyShuffle_perm {α : Type} (rand : Nat → Nat) (l : List α) :
    List.Perm (pyShuffle rand l) l :=
  shuffleGo_perm rand (l.length - 1) l

/-- Claim C9: the exam-questions endpoint returns exactly the rows
fetched for the exam, as a permutation: the response wraps a list that
is a permutation of the database result, for every shuffle
randomness. -/
theorem c9_exam_questions_permutation (env : Env) (uid : String) (rows : List JObj)
    (hv : env.verify = .ok uid) (hrows : env.examQuestionsRows = .ok rows) :
    ∃ qs, route .exam_questions env
        = .ok (JVal.jobj [("questions", JVal.jarr (qs.map JVal.jobj))]) ∧
      List.Perm qs rows := by
  refine ⟨pyShuffle env.shuffleRand rows, ?_, pyShuffle_perm _ _⟩
  have h1 : route .exam_questions env = handlerBoundary (get_exam_questions_raw env) := by
    show protectedHandler env.verify _ = _
    unfold protectedHandler requireAuth get_current_user
    rw [hv]
  rw [h1]
  unfold get_exam_questions_raw
  rw [hrows]
  rfl

theorem c9_witness :
    ∃ qs, route .exam_questions wEnvExam
        = .ok (JVal.jobj [("questions", JVal.jarr (qs.map JVal.jobj))]) ∧
      List.Perm qs [[("q", JVal.jnum 1)], [("q", JVal.jnum 2)], [("q", JVal.jnum 3)]] :=
  c9_exam_questions_permutation wEnvExam "u1" _ rfl rfl
